import Mathlib

/-!
residue-node: the native bindings `residue_native.cc` and `residuenative.cc`.

A shallow embedding of the two NAN binding modules of residue-node and of the
properties their specification states about them.

Both modules export two methods, `version` and `connect`, which forward to the
static interface of the Residue client library (`<residue/residue.h>`).  The
library is not part of the repository, so the bindings are embedded as functions
of an arbitrary client `Residue σ ε`: `σ` is the state of the process-wide client
singleton and `ε` the type of the exceptions its operations throw.

Text crosses the boundary as UTF-8.  A `std::string` holding UTF-8 is modelled by
the text it encodes (`String`); host strings are modelled by `String` as well
(well-formed strings, without unpaired surrogates).  The one step of the source
that depends on the byte representation is reading a `char*` up to its
terminating zero byte; `cString` models it on text and `cString_utf8` relates it to
the bytes.
-/

namespace ResidueNode

/-! ## Host values and string marshalling -/

/-- Host values that can be handed to a binding.  The bindings look at an argument
only through its conversion to a string, so a Number is given by the text that
conversion yields for it (42 is `number "42"`), and an object (a function and an
array included) by what running its own conversion yields: a text, or nothing when
the conversion throws. -/
inductive HostValue where
  | undefined
  | null
  | boolean (b : Bool)
  | number (text : String)
  | string (s : String)
  | symbol
  | object (conversion : Option String)
  deriving DecidableEq, Repr

namespace HostValue

/-- The conversion `v8::Value::ToString()`: the text of the value, or nothing (an
empty handle) when the conversion fails, as it does for a symbol and for an object
whose conversion throws. -/
def ToString : HostValue → Option String
  | undefined => some "undefined"
  | null => some "null"
  | boolean true => some "true"
  | boolean false => some "false"
  | number text => some text
  | string s => some s
  | symbol => none
  | object conversion => conversion

end HostValue

/-- The NUL character, terminator of a C string. -/
def NUL : Char := Char.ofNat 0

/-- A character buffer read as a NUL-terminated C string: the text before the first
NUL.  This is what `std::string(const char*)` copies and what
`String::NewFromUtf8(isolate, const char*)` reads. -/
def cString (text : String) : String :=
  ⟨text.data.takeWhile (fun c => c != NUL)⟩

/-- UTF-8 code units of one code point. -/
def utf8EncodeChar (c : Nat) : List Nat :=
  if c < 0x80 then [c]
  else if c < 0x800 then [0xC0 + c / 0x40, 0x80 + c % 0x40]
  else if c < 0x10000 then [0xE0 + c / 0x1000, 0x80 + c / 0x40 % 0x40, 0x80 + c % 0x40]
  else [0xF0 + c / 0x40000, 0x80 + c / 0x1000 % 0x40, 0x80 + c / 0x40 % 0x40, 0x80 + c % 0x40]

/-- The bytes `String::Utf8Value` holds for a host string (its terminating zero byte
left implicit). -/
def utf8 (text : String) : List Nat :=
  text.data.flatMap (fun c => utf8EncodeChar c.toNat)

/-- A byte buffer read up to its first zero byte. -/
def untilZero (bytes : List Nat) : List Nat :=
  bytes.takeWhile (fun b => b != 0)

/-! ## The client library interface -/

/-- How a C++ call ends: it returns a value, it is left by an exception, or the
program is aborted inside it.  Neither binding contains a handler, so an exception
thrown by the client leaves the binding method as well. -/
inductive Completion (ε α : Type) where
  | returned (a : α)
  | threw (e : ε)
  | aborted
  deriving DecidableEq, Repr

/-- The operations of the client library that the bindings invoke. -/
inductive ClientCall where
  | version
  | loadConfigurationFromJson (json : String)
  | reconnect
  deriving DecidableEq, Repr

/-- The static interface of `Residue` used by the bindings, over the state `σ` of
the client singleton.  `version` is a query of that state.
`loadConfigurationFromJson` and `reconnect` are called as statements: whatever they
return is discarded, so the only failure of theirs that a binding can observe is
that they do not return; each may change the client state, also when it throws. -/
structure Residue (σ ε : Type) where
  version : σ → String
  loadConfigurationFromJson : String → σ → Completion ε Unit × σ
  reconnect : σ → Completion ε Unit × σ

/-- One execution of a binding method: how it ended, the client state it left, and
the client operations it invoked, in order. -/
structure Run (σ ε : Type) where
  result : Completion ε HostValue
  state : σ
  calls : List ClientCall
  deriving DecidableEq, Repr

/-- A binding method: `NAN_METHOD(name)`, run against a client, on the argument list
`info` and the current client state. -/
abbrev Method (σ ε : Type) := Residue σ ε → List HostValue → σ → Run σ ε

/-- The expression `info[i]`: the i-th argument, `undefined` when it was not passed. -/
def arg (info : List HostValue) (i : Nat) : HostValue :=
  info.getD i HostValue.undefined

/-- What the host code that called a binding method receives.  Neither module
catches a C++ exception or raises a host error (there is no `try` and no
`Nan::ThrowError` in them), so a caller receives the return value of a method that
returned, and nothing otherwise: an exception that leaves the method is caught
nowhere and the process is terminated, as it is when the method aborts. -/
inductive HostOutcome where
  | returned (v : HostValue)
  | terminated
  deriving DecidableEq, Repr

/-- The outcome, for the calling host code, of a method that ended as given. -/
def Completion.hostOutcome {ε : Type} : Completion ε HostValue → HostOutcome
  | Completion.returned v => HostOutcome.returned v
  | Completion.threw _ => HostOutcome.terminated
  | Completion.aborted => HostOutcome.terminated

/-! ## `src/native-bindings/residue_native.cc` -/

namespace residue_native

/-- `NAN_METHOD(Version)`. -/
def Version {σ ε : Type} : Method σ ε := fun R _info st =>
  let versionStr := HostValue.string (cString (R.version st))
  { result := Completion.returned versionStr, state := st, calls := [ClientCall.version] }

/-- `NAN_METHOD(Connect)`.  When the conversion of `info[0]` fails, `jsonParam` holds
no buffer, `*jsonParam` is null and the construction of `json` from it aborts. -/
def Connect {σ ε : Type} : Method σ ε := fun R info st =>
  match (arg info 0).ToString with
  | none => { result := Completion.aborted, state := st, calls := [] }
  | some jsonParam =>
    let json := cString jsonParam
    match R.loadConfigurationFromJson json st with
    | (Completion.returned _, st1) =>
      match R.reconnect st1 with
      | (Completion.returned _, st2) =>
        { result := Completion.returned HostValue.undefined, state := st2,
          calls := [ClientCall.loadConfigurationFromJson json, ClientCall.reconnect] }
      | (Completion.threw e, st2) =>
        { result := Completion.threw e, state := st2,
          calls := [ClientCall.loadConfigurationFromJson json, ClientCall.reconnect] }
      | (Completion.aborted, st2) =>
        { result := Completion.aborted, state := st2,
          calls := [ClientCall.loadConfigurationFromJson json, ClientCall.reconnect] }
    | (Completion.threw e, st1) =>
      { result := Completion.threw e, state := st1,
        calls := [ClientCall.loadConfigurationFromJson json] }
    | (Completion.aborted, st1) =>
      { result := Completion.aborted, state := st1,
        calls := [ClientCall.loadConfigurationFromJson json] }

end residue_native

/-! ## `src/native-bindings/residuenative.cc` -/

namespace residuenative

/-- `NAN_METHOD(Version)`, read as it is written: `NanScope()` opens a handle scope,
and `NanReturnValue(String::New(Residue::version()))` returns the host string made
from the `std::string` that `Residue::version()` returns, which is handed over
itself, not through `c_str()`.  (The two macros are those of NAN 1.x, while the
rest of the file is written for NAN 2.x, and `String::New` is declared for a
`const char*`: the method does not build as it stands.) -/
def Version {σ ε : Type} : Method σ ε := fun R _info st =>
  { result := Completion.returned (HostValue.string (R.version st)),
    state := st, calls := [ClientCall.version] }

/-- `NAN_METHOD(Connect)`.  When the conversion of `info[0]` fails, `jsonParam` holds
no buffer, `*jsonParam` is null and the construction of `json` from it aborts. -/
def Connect {σ ε : Type} : Method σ ε := fun R info st =>
  match (arg info 0).ToString with
  | none => { result := Completion.aborted, state := st, calls := [] }
  | some jsonParam =>
    let json := cString jsonParam
    match R.loadConfigurationFromJson json st with
    | (Completion.returned _, st1) =>
      match R.reconnect st1 with
      | (Completion.returned _, st2) =>
        { result := Completion.returned HostValue.undefined, state := st2,
          calls := [ClientCall.loadConfigurationFromJson json, ClientCall.reconnect] }
      | (Completion.threw e, st2) =>
        { result := Completion.threw e, state := st2,
          calls := [ClientCall.loadConfigurationFromJson json, ClientCall.reconnect] }
      | (Completion.aborted, st2) =>
        { result := Completion.aborted, state := st2,
          calls := [ClientCall.loadConfigurationFromJson json, ClientCall.reconnect] }
    | (Completion.threw e, st1) =>
      { result := Completion.threw e, state := st1,
        calls := [ClientCall.loadConfigurationFromJson json] }
    | (Completion.aborted, st1) =>
      { result := Completion.aborted, state := st1,
        calls := [ClientCall.loadConfigurationFromJson json] }

end residuenative

/-! ## Derived notions -/

/-- The native string `json` that `Connect` builds from its argument list, when the
conversion of the first argument yields a text. -/
def jsonOf (info : List HostValue) : Option String :=
  (arg info 0).ToString.map cString

/-- Whether a completion is a normal return. -/
def Completion.isReturned {ε α : Type} : Completion ε α → Bool
  | Completion.returned _ => true
  | _ => false

/-- The completion of a method that ends as the client operation it called last:
`undefined` is what a method returns that set no return value. -/
def Completion.ofVoid {ε : Type} : Completion ε Unit → Completion ε HostValue
  | Completion.returned _ => Completion.returned HostValue.undefined
  | Completion.threw e => Completion.threw e
  | Completion.aborted => Completion.aborted

/-- Whether a client operation is a configuration load. -/
def ClientCall.isLoad : ClientCall → Bool
  | ClientCall.loadConfigurationFromJson _ => true
  | _ => false

/-- Whether a client operation is a reconnect. -/
def ClientCall.isReconnect : ClientCall → Bool
  | ClientCall.reconnect => true
  | _ => false

/-- The client state after a series of `connect` calls, one argument list each. -/
def afterConnects {σ ε : Type} (R : Residue σ ε) : List (List HostValue) → σ → σ
  | [], st => st
  | info :: rest, st => afterConnects R rest (residue_native.Connect R info st).state

/-! ## A client modelled from the specification -/

/-- Modelled from the spec: the ClientHandle of the client library (the library is
not in the repository), "the logging client's live state (configuration +
socket/session)": the active configuration document, if one was loaded, and the
document the live connection was established with, if there is one. -/
structure ClientHandle where
  configuration : Option String
  connection : Option String
  deriving DecidableEq, Repr

/-- Modelled from the spec: the VersionString of the client library, its
"build/version identifier", "immutable, static for the lifetime of the process" and
"non-empty": a fixed text that is a non-empty C string. -/
structure VersionString where
  text : String
  nonempty : text.data ≠ []
  no_nul : ∀ c ∈ text.data, c ≠ NUL

/-- Modelled from the spec: the operations of the client library `Residue` (missing
from the repository), after sections 4.1 and 4.2.  `version` is the fixed
VersionString.  The load step parses the document and "atomically replace[s] the
client's active configuration", and fails, changing nothing, when the document is
not accepted.  Reconnect will "tear down any existing connection (if present) and
establish a new one" using the loaded configuration, and fails, with no connection
left, when no new one can be established.  Which documents are accepted, which can
be connected with, and the exceptions thrown are parameters. -/
def specResidue {ε : Type} (v : VersionString) (accepts reachable : String → Bool)
    (configurationError connectionError : ε) : Residue ClientHandle ε where
  version := fun _ => v.text
  loadConfigurationFromJson := fun json st =>
    if accepts json then
      (Completion.returned (), { st with configuration := some json })
    else
      (Completion.threw configurationError, st)
  reconnect := fun st =>
    match st.configuration with
    | some c =>
      if reachable c then (Completion.returned (), { st with connection := some c })
      else (Completion.threw connectionError, { st with connection := none })
    | none => (Completion.threw connectionError, { st with connection := none })

/-! ## Concrete instances used to exercise the theorems -/

/-- A version identifier. -/
def sampleVersion : VersionString where
  text := "2.1.3"
  nonempty := by decide
  no_nul := by decide

/-- Documents that open with a brace are accepted. -/
def sampleAccepts (json : String) : Bool :=
  json.data.head? == some (Char.ofNat 0x7b)

/-- Documents that mention no `!` can be connected with. -/
def sampleReachable (json : String) : Bool :=
  !json.data.contains '!'

/-- A client with distinct exceptions for the two failures. -/
def sampleClient : Residue ClientHandle String :=
  specResidue sampleVersion sampleAccepts sampleReachable "bad configuration" "cannot connect"

/-- A client that accepts every document and can always connect. -/
def lenientClient : Residue ClientHandle String :=
  specResidue sampleVersion (fun _ => true) (fun _ => true) "bad configuration" "cannot connect"

/-- The client before any configuration was loaded. -/
def freshHandle : ClientHandle := { configuration := none, connection := none }

/-- A client connected with an earlier configuration. -/
def liveHandle : ClientHandle :=
  { configuration := some "\x7b\"old\":1\x7d", connection := some "\x7b\"old\":1\x7d" }

/-! ## Marshalling lemmas -/

theorem utf8EncodeChar_zero : utf8EncodeChar 0 = [0] := by
  simp [utf8EncodeChar]

theorem utf8EncodeChar_pos (c : Nat) (hc : c ≠ 0) : ∀ b ∈ utf8EncodeChar c, b ≠ 0 := by
  intro b hb
  unfold utf8EncodeChar at hb
  split at hb
  · simp at hb; omega
  · split at hb
    · simp at hb; omega
    · split at hb
      · simp at hb; omega
      · simp at hb; omega

theorem char_eq_NUL_iff (c : Char) : c = NUL ↔ c.toNat = 0 := by
  constructor
  · intro h; subst h; rfl
  · intro h
    apply Char.ext
    apply UInt32.ext
    exact h

/-- Reading the UTF-8 buffer of a text up to its first zero byte yields the UTF-8
bytes of the text before its first NUL character. -/
theorem cString_utf8 (text : String) : untilZero (utf8 text) = utf8 (cString text) := by
  obtain ⟨l⟩ := text
  simp only [utf8, cString, untilZero]
  induction l with
  | nil => rfl
  | cons c l ih =>
    by_cases hc : c = NUL
    · subst hc
      have h0 : NUL.toNat = 0 := rfl
      simp [List.takeWhile_cons, h0, utf8EncodeChar_zero]
    · have hn : c.toNat ≠ 0 := fun h => hc ((char_eq_NUL_iff c).2 h)
      have hp : ∀ b ∈ utf8EncodeChar c.toNat, (fun b => b != 0) b = true := by
        intro b hb
        simpa using utf8EncodeChar_pos c.toNat hn b hb
      have hcb : (c != NUL) = true := by simpa using hc
      rw [List.flatMap_cons, List.takeWhile_append_of_pos hp, ih, List.takeWhile_cons]
      simp [hcb]

/-- A text without NUL is its own C string. -/
theorem cString_of_no_nul (text : String) (h : ∀ c ∈ text.data, c ≠ NUL) :
    cString text = text := by
  obtain ⟨l⟩ := text
  simp only [cString]
  congr 1
  rw [List.takeWhile_eq_self_iff]
  intro c hc
  simpa using h c hc

/-! ## What one call of `Connect` does -/

theorem jsonOf_eq_some {info : List HostValue} {json : String}
    (hjson : jsonOf info = some json) :
    ∃ text, (arg info 0).ToString = some text ∧ json = cString text := by
  unfold jsonOf at hjson
  cases h : (arg info 0).ToString with
  | none => rw [h] at hjson; simp at hjson
  | some text =>
    rw [h] at hjson
    simp only [Option.map_some', Option.some.injEq] at hjson
    exact ⟨text, rfl, hjson.symm⟩

/-- A call whose first argument cannot be converted aborts before the client is
reached. -/
theorem Connect_of_no_text {σ ε : Type} (R : Residue σ ε) (info : List HostValue) (st : σ)
    (hconv : (arg info 0).ToString = none) :
    residue_native.Connect R info st =
      { result := Completion.aborted, state := st, calls := [] } := by
  simp only [residue_native.Connect, hconv]

/-- A call whose first argument converts to a text runs the load on the native string
built from it and, if the load returns, the reconnect, and ends as the last of the
two did. -/
theorem Connect_of_json {σ ε : Type} (R : Residue σ ε) (info : List HostValue) (st : σ)
    (json : String) (hjson : jsonOf info = some json) :
    residue_native.Connect R info st =
      if (R.loadConfigurationFromJson json st).1.isReturned then
        { result := (R.reconnect (R.loadConfigurationFromJson json st).2).1.ofVoid,
          state := (R.reconnect (R.loadConfigurationFromJson json st).2).2,
          calls := [ClientCall.loadConfigurationFromJson json, ClientCall.reconnect] }
      else
        { result := (R.loadConfigurationFromJson json st).1.ofVoid,
          state := (R.loadConfigurationFromJson json st).2,
          calls := [ClientCall.loadConfigurationFromJson json] } := by
  obtain ⟨text, hconv, rfl⟩ := jsonOf_eq_some hjson
  simp only [residue_native.Connect, hconv]
  rcases hl : R.loadConfigurationFromJson (cString text) st with ⟨o, st1⟩
  cases o with
  | returned u =>
    simp only [Completion.isReturned, if_true]
    rcases hr : R.reconnect st1 with ⟨o2, st2⟩
    cases o2 <;> rfl
  | threw e => rfl
  | aborted => rfl

theorem Connect_of_load_threw {σ ε : Type} (R : Residue σ ε) (info : List HostValue)
    (st st1 : σ) (json : String) (e : ε) (hjson : jsonOf info = some json)
    (hload : R.loadConfigurationFromJson json st = (Completion.threw e, st1)) :
    residue_native.Connect R info st =
      { result := Completion.threw e, state := st1,
        calls := [ClientCall.loadConfigurationFromJson json] } := by
  rw [Connect_of_json R info st json hjson, hload]
  rfl

theorem isReturned_ofVoid {ε : Type} (o : Completion ε Unit) :
    o.ofVoid.isReturned = o.isReturned := by
  cases o <;> rfl

theorem ofVoid_eq_threw {ε : Type} (o : Completion ε Unit) (e : ε) :
    o.ofVoid = Completion.threw e ↔ o = Completion.threw e := by
  cases o <;> simp [Completion.ofVoid]

/-! ## Configure-and-connect: sequencing and failure -/

/-- C1: whatever arguments `connect` is called with, if the client's
`loadConfigurationFromJson` throws on the text built from them, then `connect` ends
with that exception, the load is the only client operation invoked (`reconnect` is
not), the client is left in the state the failed load left it in, and every
observation of the client that loads do not touch, such as its connection, is what
it was before the call.  Both modules behave so. -/
theorem connect_load_failure_skips_reconnect {σ ε : Type} (R : Residue σ ε)
    (info : List HostValue) (st st1 : σ) (json : String) (e : ε)
    (hjson : jsonOf info = some json)
    (hload : R.loadConfigurationFromJson json st = (Completion.threw e, st1)) :
    (residue_native.Connect R info st).result = Completion.threw e ∧
    (residue_native.Connect R info st).calls =
      [ClientCall.loadConfigurationFromJson json] ∧
    ClientCall.reconnect ∉ (residue_native.Connect R info st).calls ∧
    (residue_native.Connect R info st).state = st1 ∧
    (∀ {κ : Type} (connection : σ → κ),
      (∀ text s, connection (R.loadConfigurationFromJson text s).2 = connection s) →
      connection (residue_native.Connect R info st).state = connection st) ∧
    residuenative.Connect R info st = residue_native.Connect R info st := by
  have h := Connect_of_load_threw R info st st1 json e hjson hload
  refine ⟨by rw [h], by rw [h], by rw [h]; simp, by rw [h], ?_, rfl⟩
  intro κ connection hc
  rw [h]
  have := hc json st
  rw [hload] at this
  exact this

/-- C1 on a client connected with an earlier configuration: a document that is not
accepted leaves the connection in place. -/
theorem connect_load_failure_skips_reconnect_witness :
    (residue_native.Connect sampleClient [HostValue.string "oops"] liveHandle).result =
      Completion.threw "bad configuration" ∧
    (residue_native.Connect sampleClient [HostValue.string "oops"] liveHandle).calls =
      [ClientCall.loadConfigurationFromJson "oops"] ∧
    ClientCall.reconnect ∉
      (residue_native.Connect sampleClient [HostValue.string "oops"] liveHandle).calls ∧
    (residue_native.Connect sampleClient [HostValue.string "oops"] liveHandle).state =
      liveHandle ∧
    (residue_native.Connect sampleClient [HostValue.string "oops"] liveHandle).state.connection =
      liveHandle.connection ∧
    residuenative.Connect sampleClient [HostValue.string "oops"] liveHandle =
      residue_native.Connect sampleClient [HostValue.string "oops"] liveHandle :=
  have h := connect_load_failure_skips_reconnect sampleClient [HostValue.string "oops"]
    liveHandle liveHandle "oops" "bad configuration" (by decide) (by decide)
  ⟨h.1, h.2.1, h.2.2.1, h.2.2.2.1,
    h.2.2.2.2.1 ClientHandle.connection (by
      intro text s
      simp only [sampleClient, specResidue]
      split <;> rfl),
    h.2.2.2.2.2⟩

/-- C2 at a host string that holds a NUL after a document: both client steps
succeed and `connect` returns, but the load in the trace is the load of the text
before the NUL, not of the string passed.  Both modules behave so. -/
theorem connect_trace_on_nul_string :
    (residue_native.Connect sampleClient
        [HostValue.string "\x7b\"port\":8777\x7d\x00\x7b\"port\":1\x7d"] liveHandle).result =
      Completion.returned HostValue.undefined ∧
    (residue_native.Connect sampleClient
        [HostValue.string "\x7b\"port\":8777\x7d\x00\x7b\"port\":1\x7d"] liveHandle).calls =
      [ClientCall.loadConfigurationFromJson "\x7b\"port\":8777\x7d", ClientCall.reconnect] ∧
    (residue_native.Connect sampleClient
        [HostValue.string "\x7b\"port\":8777\x7d\x00\x7b\"port\":1\x7d"] liveHandle).calls ≠
      [ClientCall.loadConfigurationFromJson "\x7b\"port\":8777\x7d\x00\x7b\"port\":1\x7d",
        ClientCall.reconnect] ∧
    (residuenative.Connect sampleClient
        [HostValue.string "\x7b\"port\":8777\x7d\x00\x7b\"port\":1\x7d"] liveHandle).calls =
      [ClientCall.loadConfigurationFromJson "\x7b\"port\":8777\x7d", ClientCall.reconnect] := by
  decide

/-! ## Arguments of `connect` -/

/-- C3, as stated, fails: called with no argument, and called with `null`, `connect`
hands the texts "undefined" and "null" to the client's load and then reconnects;
with a client that accepts them the call returns normally. -/
theorem connect_missing_argument_reaches_client :
    residue_native.Connect lenientClient [] freshHandle =
      { result := Completion.returned HostValue.undefined,
        state := { configuration := some "undefined", connection := some "undefined" },
        calls := [ClientCall.loadConfigurationFromJson "undefined", ClientCall.reconnect] } ∧
    residuenative.Connect lenientClient [HostValue.null] freshHandle =
      { result := Completion.returned HostValue.undefined,
        state := { configuration := some "null", connection := some "null" },
        calls := [ClientCall.loadConfigurationFromJson "null", ClientCall.reconnect] } := by
  decide

/-- C3, amended: whatever the first argument of `connect` is, and so when it is
missing or is not a string, the binding checks nothing and raises no error of its
own.  A missing argument reads as `undefined`; `undefined`, `null`, the booleans and
a number convert to the texts "undefined", "null", "true", "false" and the text of
the number; a symbol does not convert.  When the conversion fails, `connect` is
aborted before any client operation, the client state untouched.  When it yields a
text, the first client operation is the load of the native string built from the
text, which is the text itself when it holds no NUL; the reconnect follows exactly
when the load returns; `connect` returns exactly when both return, and an exception
that leaves it is the one the load or the reconnect threw.  Both modules behave
so. -/
theorem connect_coerces_non_string_argument {σ ε : Type} (R : Residue σ ε)
    (info : List HostValue) (st : σ) :
    ((arg info 0).ToString = none →
      residue_native.Connect R info st =
        { result := Completion.aborted, state := st, calls := [] }) ∧
    (∀ text, (arg info 0).ToString = some text →
      (residue_native.Connect R info st).calls.head? =
        some (ClientCall.loadConfigurationFromJson (cString text)) ∧
      ((∀ c ∈ text.data, c ≠ NUL) →
        (residue_native.Connect R info st).calls.head? =
          some (ClientCall.loadConfigurationFromJson text)) ∧
      (residue_native.Connect R info st).calls =
        (if (R.loadConfigurationFromJson (cString text) st).1.isReturned then
          [ClientCall.loadConfigurationFromJson (cString text), ClientCall.reconnect]
        else [ClientCall.loadConfigurationFromJson (cString text)]) ∧
      (residue_native.Connect R info st).result.isReturned =
        ((R.loadConfigurationFromJson (cString text) st).1.isReturned &&
          (R.reconnect (R.loadConfigurationFromJson (cString text) st).2).1.isReturned) ∧
      (∀ e, (residue_native.Connect R info st).result = Completion.threw e →
        (R.loadConfigurationFromJson (cString text) st).1 = Completion.threw e ∨
        (R.reconnect (R.loadConfigurationFromJson (cString text) st).2).1 =
          Completion.threw e)) ∧
    (info = [] → (arg info 0).ToString = some "undefined") ∧
    (arg info 0 = HostValue.undefined → (arg info 0).ToString = some "undefined") ∧
    (arg info 0 = HostValue.null → (arg info 0).ToString = some "null") ∧
    (arg info 0 = HostValue.boolean true → (arg info 0).ToString = some "true") ∧
    (arg info 0 = HostValue.boolean false → (arg info 0).ToString = some "false") ∧
    (∀ digits, arg info 0 = HostValue.number digits →
      (arg info 0).ToString = some digits) ∧
    (arg info 0 = HostValue.symbol → (arg info 0).ToString = none) ∧
    (∀ conversion, arg info 0 = HostValue.object conversion →
      (arg info 0).ToString = conversion) ∧
    residuenative.Connect R info st = residue_native.Connect R info st := by
  refine ⟨Connect_of_no_text R info st, ?_, ?_, ?_, ?_, ?_, ?_, ?_, ?_, ?_, rfl⟩
  · intro text hconv
    have hjson : jsonOf info = some (cString text) := by
      simp only [jsonOf, hconv, Option.map_some']
    have h := Connect_of_json R info st (cString text) hjson
    have hhead : (residue_native.Connect R info st).calls.head? =
        some (ClientCall.loadConfigurationFromJson (cString text)) := by
      rw [h]; split <;> rfl
    refine ⟨hhead, ?_, ?_, ?_, ?_⟩
    · intro hn
      rw [hhead, cString_of_no_nul text hn]
    · rw [h]; split <;> rfl
    · rw [h]
      split
      · rename_i hr
        simp only [hr, Bool.true_and, isReturned_ofVoid]
      · rename_i hr
        simp only [Bool.not_eq_true] at hr
        simp only [hr, Bool.false_and, isReturned_ofVoid]
    · intro e he
      rw [h] at he
      split at he
      · exact Or.inr ((ofVoid_eq_threw _ e).1 he)
      · exact Or.inl ((ofVoid_eq_threw _ e).1 he)
  · intro h; subst h; rfl
  · intro h; rw [h]; rfl
  · intro h; rw [h]; rfl
  · intro h; rw [h]; rfl
  · intro h; rw [h]; rfl
  · intro digits h; rw [h]; rfl
  · intro h; rw [h]; rfl
  · intro conversion h; rw [h]; rfl

/-- C3, amended, on a connected client: the number 42 reaches the load as the text
"42", and a symbol aborts the call with the client untouched. -/
theorem connect_coerces_non_string_argument_witness :
    (residue_native.Connect sampleClient [HostValue.number "42"] liveHandle).calls.head? =
      some (ClientCall.loadConfigurationFromJson "42") ∧
    residue_native.Connect sampleClient [HostValue.symbol] liveHandle =
      { result := Completion.aborted, state := liveHandle, calls := [] } :=
  ⟨((connect_coerces_non_string_argument sampleClient [HostValue.number "42"]
      liveHandle).2.1 "42" (by decide)).2.1 (by decide),
    (connect_coerces_non_string_argument sampleClient [HostValue.symbol]
      liveHandle).1 (by decide)⟩

/-- C4 at a host string that holds a NUL: `connect` hands the client only the text
before the NUL (here a document the client accepts, although the string passed is
not one), and the bytes handed over are a proper prefix of the UTF-8 encoding of
the string. -/
theorem connect_truncates_at_nul :
    jsonOf [HostValue.string "\x7b\x7d\x00, \"junk\""] = some "\x7b\x7d" ∧
    jsonOf [HostValue.string "\x7b\x7d\x00, \"junk\""] ≠ some "\x7b\x7d\x00, \"junk\"" ∧
    (residue_native.Connect sampleClient [HostValue.string "\x7b\x7d\x00, \"junk\""]
        freshHandle).calls =
      [ClientCall.loadConfigurationFromJson "\x7b\x7d", ClientCall.reconnect] ∧
    (residuenative.Connect sampleClient [HostValue.string "\x7b\x7d\x00, \"junk\""]
        freshHandle).calls =
      [ClientCall.loadConfigurationFromJson "\x7b\x7d", ClientCall.reconnect] ∧
    untilZero (utf8 "\x7b\x7d\x00, \"junk\"") = [123, 125] ∧
    utf8 "\x7b\x7d\x00, \"junk\"" = [123, 125, 0, 44, 32, 34, 106, 117, 110, 107, 34] := by
  decide

/-! ## Failures of `connect` -/

/-- C5, as stated, fails: a `connect` that fails in the load and one that fails in
the reconnect leave the binding by the client's two exceptions, which nothing
catches or turns into a host error, so the caller receives no error value in
either case and the two failures end alike for it, with the process terminated. -/
theorem connect_failures_reach_caller_alike :
    (residue_native.Connect sampleClient [HostValue.string "oops"] liveHandle).result =
      Completion.threw "bad configuration" ∧
    (residue_native.Connect sampleClient [HostValue.string "\x7b!\x7d"] liveHandle).result =
      Completion.threw "cannot connect" ∧
    (residue_native.Connect sampleClient [HostValue.string "oops"]
      liveHandle).result.hostOutcome = HostOutcome.terminated ∧
    (residue_native.Connect sampleClient [HostValue.string "\x7b!\x7d"]
      liveHandle).result.hostOutcome =
    (residue_native.Connect sampleClient [HostValue.string "oops"]
      liveHandle).result.hostOutcome := by
  decide

/-- C5, amended: `connect` on a string fails if and only if the client's load does
not return, or the load returns and the client's reconnect does not.  In either
case the client's exception leaves the binding as it was thrown; the binding has no
handler and no error classes of its own, so the caller receives neither a value
nor an error and the process is terminated, whichever step failed.  `connect`
hands `undefined` to its caller only when both steps returned. -/
theorem connect_fails_iff_client_throws {σ ε : Type} (R : Residue σ ε) (s : String)
    (st : σ) :
    ((residue_native.Connect R [HostValue.string s] st).result.isReturned = false ↔
      ((R.loadConfigurationFromJson (cString s) st).1.isReturned = false ∨
        ((R.loadConfigurationFromJson (cString s) st).1.isReturned = true ∧
          (R.reconnect (R.loadConfigurationFromJson (cString s) st).2).1.isReturned = false))) ∧
    (∀ e, (R.loadConfigurationFromJson (cString s) st).1 = Completion.threw e →
      (residue_native.Connect R [HostValue.string s] st).result = Completion.threw e) ∧
    (∀ e, (R.loadConfigurationFromJson (cString s) st).1.isReturned = true →
      (R.reconnect (R.loadConfigurationFromJson (cString s) st).2).1 = Completion.threw e →
      (residue_native.Connect R [HostValue.string s] st).result = Completion.threw e) ∧
    ((residue_native.Connect R [HostValue.string s] st).result.isReturned = false →
      (residue_native.Connect R [HostValue.string s] st).result.hostOutcome =
        HostOutcome.terminated) ∧
    ((residue_native.Connect R [HostValue.string s] st).result.isReturned = true →
      (residue_native.Connect R [HostValue.string s] st).result.hostOutcome =
        HostOutcome.returned HostValue.undefined) ∧
    residuenative.Connect R [HostValue.string s] st =
      residue_native.Connect R [HostValue.string s] st := by
  have hj : jsonOf [HostValue.string s] = some (cString s) := rfl
  have h := Connect_of_json R [HostValue.string s] st (cString s) hj
  refine ⟨?_, ?_, ?_, ?_, ?_, rfl⟩ <;>
  · rcases hl : R.loadConfigurationFromJson (cString s) st with ⟨o, st1⟩
    rw [hl] at h
    cases o with
    | returned u =>
      simp only [Completion.isReturned, if_true] at h
      rcases hr : R.reconnect st1 with ⟨o2, st2⟩
      rw [hr] at h
      cases o2 <;>
      · rw [h]
        simp [Completion.isReturned, Completion.ofVoid, Completion.hostOutcome, hr]
    | threw e =>
      rw [h]
      simp [Completion.isReturned, Completion.ofVoid, Completion.hostOutcome]
    | aborted =>
      rw [h]
      simp [Completion.isReturned, Completion.ofVoid, Completion.hostOutcome]

/-- C5, amended, on a document the client accepts but cannot connect with. -/
theorem connect_fails_iff_client_throws_witness :
    (residue_native.Connect sampleClient [HostValue.string "\x7b!\x7d"] freshHandle).result =
        Completion.threw "cannot connect" ∧
    (residue_native.Connect sampleClient [HostValue.string "\x7b!\x7d"]
      freshHandle).result.hostOutcome = HostOutcome.terminated :=
  ⟨(connect_fails_iff_client_throws sampleClient "\x7b!\x7d" freshHandle).2.2.1
      "cannot connect" (by decide) (by decide),
    (connect_fails_iff_client_throws sampleClient "\x7b!\x7d" freshHandle).2.2.2.1
      (by decide)⟩

/-! ## The version query and the number of client operations -/

/-- C6: in every client state, `version` returns normally the text of
`Residue::version()`, read as a C string (the whole version string whenever it holds
no NUL), invokes `Residue::version` and nothing else, so neither the load nor
reconnect, and leaves the client state as it was.  The `Version` of
`residuenative.cc`, as it is written, returns the version string itself, with the
same single client operation and the state as it was. -/
theorem version_is_pure_query {σ ε : Type} (R : Residue σ ε) (info : List HostValue)
    (st : σ) :
    (residue_native.Version R info st).result =
      Completion.returned (HostValue.string (cString (R.version st))) ∧
    ((∀ c ∈ (R.version st).data, c ≠ NUL) →
      (residue_native.Version R info st).result =
        Completion.returned (HostValue.string (R.version st))) ∧
    (residue_native.Version R info st).calls = [ClientCall.version] ∧
    (∀ c ∈ (residue_native.Version R info st).calls,
      c.isLoad = false ∧ c.isReconnect = false) ∧
    (residue_native.Version R info st).state = st ∧
    residuenative.Version R info st =
      { result := Completion.returned (HostValue.string (R.version st)), state := st,
        calls := [ClientCall.version] } := by
  refine ⟨rfl, ?_, rfl, ?_, rfl, rfl⟩
  · intro hn
    simp only [residue_native.Version, cString_of_no_nul _ hn]
  · intro c hc
    simp only [residue_native.Version, List.mem_singleton] at hc
    subst hc
    exact ⟨rfl, rfl⟩

/-- C6 before any configuration has been loaded. -/
theorem version_is_pure_query_witness :
    (residue_native.Version sampleClient [] freshHandle).result =
      Completion.returned (HostValue.string "2.1.3") :=
  (version_is_pure_query sampleClient [] freshHandle).2.1 (by decide)

/-- C7, as stated, fails: a `connect` whose load returns invokes two client
operations, the load and the reconnect. -/
theorem connect_invokes_two_operations :
    (residue_native.Connect sampleClient [HostValue.string "\x7b\x7d"] freshHandle).calls =
      [ClientCall.loadConfigurationFromJson "\x7b\x7d", ClientCall.reconnect] ∧
    (residue_native.Connect sampleClient [HostValue.string "\x7b\x7d"]
      freshHandle).calls.length = 2 ∧
    (residuenative.Connect sampleClient [HostValue.string "\x7b\x7d"]
      freshHandle).calls.length = 2 := by
  decide

/-- C7, amended: `version` invokes exactly one client operation, `Residue::version`.
`connect` invokes none when its first argument does not convert to a string;
otherwise exactly one, `Residue::loadConfigurationFromJson` on the native string
built from the argument, when the load does not return, and exactly two, that load
and then `Residue::reconnect`, when the load returns.  Both modules behave so. -/
theorem client_operations_per_call {σ ε : Type} (R : Residue σ ε) (info : List HostValue)
    (st : σ) :
    (residue_native.Version R info st).calls = [ClientCall.version] ∧
    (residuenative.Version R info st).calls = [ClientCall.version] ∧
    (jsonOf info = none → (residue_native.Connect R info st).calls = []) ∧
    (∀ json, jsonOf info = some json →
      ((R.loadConfigurationFromJson json st).1.isReturned = false →
        (residue_native.Connect R info st).calls =
          [ClientCall.loadConfigurationFromJson json]) ∧
      ((R.loadConfigurationFromJson json st).1.isReturned = true →
        (residue_native.Connect R info st).calls =
          [ClientCall.loadConfigurationFromJson json, ClientCall.reconnect])) ∧
    residuenative.Connect R info st = residue_native.Connect R info st := by
  refine ⟨rfl, rfl, ?_, ?_, rfl⟩
  · intro hnone
    have hconv : (arg info 0).ToString = none := by
      simpa [jsonOf] using hnone
    rw [Connect_of_no_text R info st hconv]
  · intro json hjson
    have h := Connect_of_json R info st json hjson
    constructor
    · intro hl
      rw [h, hl]; rfl
    · intro hl
      rw [h, hl]; rfl

/-- C7, amended, on a fresh client: a rejected document costs one client operation,
an accepted one two, a symbol none. -/
theorem client_operations_per_call_witness :
    (residue_native.Connect sampleClient [HostValue.string "oops"] freshHandle).calls =
      [ClientCall.loadConfigurationFromJson "oops"] ∧
    (residue_native.Connect sampleClient [HostValue.string "\x7b\x7d"] freshHandle).calls =
      [ClientCall.loadConfigurationFromJson "\x7b\x7d", ClientCall.reconnect] ∧
    (residue_native.Connect sampleClient [HostValue.symbol] freshHandle).calls = [] :=
  ⟨((client_operations_per_call sampleClient [HostValue.string "oops"]
      freshHandle).2.2.2.1 "oops" (by decide)).1 (by decide),
    ((client_operations_per_call sampleClient [HostValue.string "\x7b\x7d"]
      freshHandle).2.2.2.1 "\x7b\x7d" (by decide)).2 (by decide),
    (client_operations_per_call sampleClient [HostValue.symbol]
      freshHandle).2.2.1 (by decide)⟩

/-! ## Properties that rest on the client modelled from the specification -/

/-- C9: with the client modelled from the specification, `version` returns a
non-empty string, and it returns the same string after any series of `connect`
calls, successful or failed, before it and between two calls of it.  Both modules
behave so. -/
theorem version_nonempty_and_stable {ε : Type} (v : VersionString)
    (accepts reachable : String → Bool) (configurationError connectionError : ε)
    (before between : List (List HostValue)) (st : ClientHandle) :
    ∃ t : String, t ≠ "" ∧
      (residue_native.Version
        (specResidue v accepts reachable configurationError connectionError) []
        (afterConnects (specResidue v accepts reachable configurationError connectionError)
          before st)).result = Completion.returned (HostValue.string t) ∧
      (residue_native.Version
        (specResidue v accepts reachable configurationError connectionError) []
        (afterConnects (specResidue v accepts reachable configurationError connectionError)
          between
          (afterConnects (specResidue v accepts reachable configurationError connectionError)
            before st))).result = Completion.returned (HostValue.string t) ∧
      (residuenative.Version
        (specResidue v accepts reachable configurationError connectionError) []
        (afterConnects (specResidue v accepts reachable configurationError connectionError)
          between
          (afterConnects (specResidue v accepts reachable configurationError connectionError)
            before st))).result = Completion.returned (HostValue.string t) := by
  refine ⟨v.text, ?_, ?_, ?_, ?_⟩
  · intro h
    apply v.nonempty
    rw [h]
  · simp only [residue_native.Version, specResidue, cString_of_no_nul _ v.no_nul]
  · simp only [residue_native.Version, specResidue, cString_of_no_nul _ v.no_nul]
  · simp only [residuenative.Version, specResidue]

/-! ## The two modules -/

end ResidueNode
